import Mathlib

/-!
Verification development for the influencer resolution-and-enrichment pipeline
(`chattbot` repository).  The Python sources under `api_clients.py`,
`workflow_logic.py`, `database.py`, `main.py`, `unified_data_manager.py` and
`fast_semantic_matcher.py` are shallowly embedded below: pure functions become
Lean functions, dict-shaped records become structures, external network calls
(LLM completions, web search, scraping) become oracle-provided inputs, and the
flat JSON profile store becomes an association list.  Machine floats are
modelled as exact rationals (`ℚ`); the one genuinely real-valued quantity
(`statistics.stdev`, a square root) is modelled over `ℝ` with `Real.sqrt`.
String operations are implemented over character lists by structural
recursion so that every definition evaluates inside the kernel.
-/

/-! ## Python string primitives

Helpers reproducing the exact Python `str` operations used by the sources,
over the ASCII alphabet the pipeline works with. -/

/-- Python whitespace for `str.strip` and `str.split` (space, tab, LF, CR,
vertical tab, form feed). -/
def isPySpace (c : Char) : Bool :=
  c.toNat == 32 || c.toNat == 9 || c.toNat == 10 || c.toNat == 13 ||
    c.toNat == 11 || c.toNat == 12

/-- ASCII lowercasing of one character, as Python `str.lower` does on ASCII. -/
def lowerChar (c : Char) : Char :=
  if 65 ≤ c.toNat ∧ c.toNat ≤ 90 then Char.ofNat (c.toNat + 32) else c

/-- Python `s.lower()` (ASCII fragment). -/
def pyLower (s : String) : String := (s.toList.map lowerChar).asString

/-- Python `s.strip()`: remove leading and trailing whitespace. -/
def pyStrip (s : String) : String :=
  (((s.toList.dropWhile isPySpace).reverse.dropWhile isPySpace).reverse).asString

/-- Worker for `pySplitWs`: split a character list on whitespace runs. -/
def splitWsAux : List Char → List Char → List (List Char)
  | acc, [] => if acc.isEmpty then [] else [acc.reverse]
  | acc, c :: rest =>
    if isPySpace c then
      if acc.isEmpty then splitWsAux [] rest
      else acc.reverse :: splitWsAux [] rest
    else splitWsAux (c :: acc) rest

/-- Python `s.split()` with no argument: split on whitespace runs, dropping
empty pieces. -/
def pySplitWs (s : String) : List String := (splitWsAux [] s.toList).map List.asString

/-- Worker for `pySplitOn`; the fuel argument starts at the list length and
only bounds the recursion (each step consumes at least one character). -/
def splitOnAux (sep : List Char) : ℕ → List Char → List Char → List (List Char)
  | _, acc, [] => [acc.reverse]
  | 0, acc, l => [acc.reverse ++ l]
  | fuel + 1, acc, c :: rest =>
    if sep.isPrefixOf (c :: rest) then
      acc.reverse :: splitOnAux sep fuel [] ((c :: rest).drop sep.length)
    else splitOnAux sep fuel (c :: acc) rest

/-- Python `s.split(sep)` for a non-empty separator. -/
def pySplitOn (s sep : String) : List String :=
  if sep.toList.isEmpty then [s]
  else (splitOnAux sep.toList s.toList.length [] s.toList).map List.asString

/-- Worker for `pyReplace`; fuel as in `splitOnAux`. -/
def replaceAux (old new : List Char) : ℕ → List Char → List Char
  | _, [] => []
  | 0, l => l
  | fuel + 1, c :: rest =>
    if old.isPrefixOf (c :: rest) then
      new ++ replaceAux old new fuel ((c :: rest).drop old.length)
    else c :: replaceAux old new fuel rest

/-- Python `s.replace(old, new)` for a non-empty pattern: replace every
non-overlapping occurrence, left to right. -/
def pyReplace (s old new : String) : String :=
  if old.toList.isEmpty then s
  else (replaceAux old.toList new.toList s.toList.length s.toList).asString

/-- Python `s.startswith(pre)`. -/
def pyStartsWith (s pre : String) : Bool := pre.toList.isPrefixOf s.toList

/-- Python `needle in hay` substring test on character lists. -/
def listContainsSub (needle : List Char) : List Char → Bool
  | [] => needle.isPrefixOf []
  | c :: rest => needle.isPrefixOf (c :: rest) || listContainsSub needle rest

/-- Python `needle in hay` substring containment on strings. -/
def pyContains (hay needle : String) : Bool :=
  listContainsSub needle.toList hay.toList

/-- Python `s.isalpha()`: non-empty and every character alphabetic. -/
def pyIsAlpha (s : String) : Bool :=
  !s.isEmpty && s.toList.all Char.isAlpha

/-- Python `s.isalnum()`: non-empty and every character alphanumeric. -/
def pyIsAlnum (s : String) : Bool :=
  !s.isEmpty && s.toList.all Char.isAlphanum

/-- The apostrophe character (code point 39). -/
def apostropheChar : Char := Char.ofNat 39

/-- Python `s.rstrip(c)`: drop all trailing occurrences of a character. -/
def pyRstrip (s : String) (c : Char) : String :=
  ((s.toList.reverse.dropWhile (· == c)).reverse).asString

/-- Python `s.split(sep)[0]`: the text before the first separator. -/
def pyBeforeFirst (s sep : String) : String :=
  (pySplitOn s sep).headD ""

/-- Python `sep.join(l)`. -/
def pyJoin (sep : String) (l : List String) : String :=
  (List.intercalate sep.toList (l.map String.toList)).asString

/-- Python `dict.fromkeys(l)` key order: order-preserving deduplication. -/
def dedupPreserve (l : List String) : List String :=
  l.foldl (fun acc t => if acc.contains t then acc else acc ++ [t]) []

/-! ## Name heuristic (`api_clients._looks_like_name`, lines 149-202) -/

/-- The `non_name_indicators` list of `_looks_like_name`
(`api_clients.py` lines 154-161), verbatim. -/
def non_name_indicators : List String :=
  ["review", "best", "top", "how to", "tutorial", "guide", "tips",
   "laptop", "phone", "camera", "product", "brand", "company",
   "vs", "comparison", "price", "buy", "sell", "discount", "deal",
   "unboxing", "specs", "features", "gaming", "tech", "mobile",
   "what is", "which is", "where to", "when to", "why",
   "promote my", "advertise my", "marketing for", "influencers for"]

/-- Per-word test of the single-token branch of `_looks_like_name`
(`api_clients.py` line 177). -/
def singleWordOk (w : String) : Bool :=
  (pyIsAlpha w || pyIsAlnum (pyReplace (pyReplace w "_" "") "." "")) &&
    decide (3 ≤ w.length ∧ w.length ≤ 20)

/-- Per-word test of the two- and three-token branches of `_looks_like_name`
(`api_clients.py` lines 183-186 and 190-193). -/
def midWordOk (w : String) : Bool :=
  (pyIsAlpha w || pyIsAlpha (pyReplace w apostropheChar.toString "")) &&
    decide (2 ≤ w.length ∧ w.length ≤ 15)

/-- Per-word test of the four-token branch of `_looks_like_name`
(`api_clients.py` lines 197-200). -/
def fourWordOk (w : String) : Bool :=
  pyIsAlpha w && decide (2 ≤ w.length ∧ w.length ≤ 12)

/-- Embedding of `api_clients._looks_like_name` (lines 149-202): the heuristic
deciding whether a free-text query looks like a person name. -/
def _looks_like_name (query : String) : Bool :=
  let q := pyLower (pyStrip query)
  if non_name_indicators.any (fun ind => pyContains q ind) then false
  else
    let words := pySplitWs q
    if words.length == 0 || decide (4 < words.length) then false
    else if words.length == 1 then singleWordOk (words.headD "")
    else if words.length == 2 then words.all midWordOk
    else if words.length == 3 then words.all midWordOk
    else if words.length == 4 then words.all fourWordOk
    else false

/-- Spec-side lower length bound for a token, by token count. -/
def tokenLowBound (n : ℕ) : ℕ := if n = 1 then 3 else 2

/-- Spec-side upper length bound for a token, by token count. -/
def tokenHighBound (n : ℕ) : ℕ := if n = 1 then 20 else if n ≤ 3 then 15 else 12

/-- Claim C4: a query of 1-4 whitespace-separated strictly alphabetic tokens
within the per-token length bounds (single token 3-20; 2-3 tokens 2-15 each;
4 tokens 2-12 each) whose normalized form (trimmed, lowercased - the form the
heuristic matches indicators against) contains no non-name indicator substring
is accepted by `_looks_like_name`; a query whose normalized form contains any
non-name indicator substring is rejected regardless of token shape. -/
theorem looks_like_name_spec :
    (∀ q : String,
      non_name_indicators.any (fun ind => pyContains (pyLower (pyStrip q)) ind) = false →
      1 ≤ (pySplitWs (pyLower (pyStrip q))).length →
      (pySplitWs (pyLower (pyStrip q))).length ≤ 4 →
      (∀ w ∈ pySplitWs (pyLower (pyStrip q)),
        pyIsAlpha w = true ∧
        tokenLowBound (pySplitWs (pyLower (pyStrip q))).length ≤ w.length ∧
        w.length ≤ tokenHighBound (pySplitWs (pyLower (pyStrip q))).length) →
      _looks_like_name q = true) ∧
    (∀ q : String,
      non_name_indicators.any (fun ind => pyContains (pyLower (pyStrip q)) ind) = true →
      _looks_like_name q = false) := by
  constructor
  · intro q hind h1 h4 hw
    simp only [_looks_like_name, hind, Bool.false_eq_true, if_false]
    rcases Nat.lt_or_ge (pySplitWs (pyLower (pyStrip q))).length 2 with hlt | hge
    · -- one word
      have hn : (pySplitWs (pyLower (pyStrip q))).length = 1 := by omega
      obtain ⟨w, hwEq⟩ := List.length_eq_one.mp hn
      obtain ⟨ha, hl, hh⟩ := hw w (by rw [hwEq]; exact List.mem_singleton_self w)
      rw [hn] at hl hh
      norm_num [tokenLowBound, tokenHighBound] at hl hh
      rw [hn, hwEq]
      norm_num [List.headD_cons, singleWordOk, ha]
      exact ⟨hl, hh⟩
    · rcases Nat.lt_or_ge (pySplitWs (pyLower (pyStrip q))).length 4 with hlt4 | hge4
      · rcases Nat.lt_or_ge (pySplitWs (pyLower (pyStrip q))).length 3 with hlt3 | hge3
        · -- two words
          have hn : (pySplitWs (pyLower (pyStrip q))).length = 2 := by omega
          rw [hn]
          norm_num [List.all_eq_true]
          intro w hwmem
          obtain ⟨ha, hl, hh⟩ := hw w hwmem
          rw [hn] at hl hh
          norm_num [tokenLowBound, tokenHighBound] at hl hh
          norm_num [midWordOk, ha]
          exact ⟨hl, hh⟩
        · -- three words
          have hn : (pySplitWs (pyLower (pyStrip q))).length = 3 := by omega
          rw [hn]
          norm_num [List.all_eq_true]
          intro w hwmem
          obtain ⟨ha, hl, hh⟩ := hw w hwmem
          rw [hn] at hl hh
          norm_num [tokenLowBound, tokenHighBound] at hl hh
          norm_num [midWordOk, ha]
          exact ⟨hl, hh⟩
      · -- four words
        have hn : (pySplitWs (pyLower (pyStrip q))).length = 4 := by omega
        rw [hn]
        norm_num [List.all_eq_true]
        intro w hwmem
        obtain ⟨ha, hl, hh⟩ := hw w hwmem
        rw [hn] at hl hh
        norm_num [tokenLowBound, tokenHighBound] at hl hh
        norm_num [fourWordOk, ha]
        exact ⟨hl, hh⟩
  · intro q hind
    simp [_looks_like_name, hind]

/-- Witness for C4: `"john smith"` is accepted, `"best laptop"` is rejected. -/
theorem looks_like_name_spec_witness :
    _looks_like_name "john smith" = true ∧ _looks_like_name "best laptop" = false := by
  refine ⟨looks_like_name_spec.1 "john smith" (by decide) (by decide) (by decide) ?_,
          looks_like_name_spec.2 "best laptop" (by decide)⟩
  decide

/-! ## Spelling correction (`api_clients.py` lines 205-398)

`message_model` is an external LLM call; its response is an oracle input
(`Option String`, `none` for a failed call, which Python sees as a falsy
`response`). -/

/-- Decimal digit test. -/
def isDigitChar (c : Char) : Bool := 48 ≤ c.toNat && c.toNat ≤ 57

/-- Numeric value of a digit list. -/
def digitsVal (ds : List Char) : ℕ := ds.foldl (fun a c => a * 10 + (c.toNat - 48)) 0

/-- Match the regex `\d*\.?\d+` at the head of a character list (with the
backtracking semantics of the Python `re` engine), returning its value. -/
def decMatchAt (l : List Char) : Option ℚ :=
  let d1 := l.takeWhile isDigitChar
  let rest := l.drop d1.length
  match rest with
  | c :: rest2 =>
    if c == Char.ofNat 46 then
      let d2 := rest2.takeWhile isDigitChar
      if d2.isEmpty then
        if d1.isEmpty then none else some (digitsVal d1)
      else some ((digitsVal d1 : ℚ) + (digitsVal d2 : ℚ) / (10 : ℚ) ^ d2.length)
    else if d1.isEmpty then none else some (digitsVal d1)
  | [] => if d1.isEmpty then none else some (digitsVal d1)

/-- Leftmost match of `\d*\.?\d+` in a character list. -/
def firstDecimalMatch : List Char → Option ℚ
  | [] => none
  | c :: rest =>
    match decMatchAt (c :: rest) with
    | some v => some v
    | none => firstDecimalMatch rest

/-- Python `re.search(r"(\d*\.?\d+)", s)` returning the matched value. -/
def pyFirstNumber (s : String) : Option ℚ := firstDecimalMatch s.toList

/-- Result dict of the spelling-correction stage (`SpellCorrectionResult`). -/
structure SpellResult where
  is_influencer : Bool
  corrected_name : String
  original_query : String
  confidence : ℚ
  reasoning : String

/-- Embedding of `api_clients.parse_spelling_correction_response`
(lines 357-398): tolerant line-oriented parsing of the LLM reply. -/
def parse_spelling_correction_response (responseText originalQuery : String) : SpellResult :=
  let init : SpellResult :=
    { is_influencer := true
      corrected_name := originalQuery
      original_query := originalQuery
      confidence := 1/2
      reasoning := "Parsing failed, defaulted to influencer" }
  if responseText = "" then init
  else
    let lines := ((pySplitOn responseText "\n").map pyStrip).filter (· ≠ "")
    lines.foldl (fun r line =>
      if pyStartsWith line "Is Influencer:" then
        let isInf := pyLower (pyStrip (pyReplace line "Is Influencer:" ""))
        { r with is_influencer := ["yes", "true", "1", "y"].contains isInf }
      else if pyStartsWith line "Corrected Name:" then
        let corrected := pyStrip (pyReplace line "Corrected Name:" "")
        if corrected ≠ "" && pyLower corrected ≠ "null" then
          { r with corrected_name := corrected }
        else r
      else if pyStartsWith line "Confidence:" then
        let confStr := pyStrip (pyReplace line "Confidence:" "")
        match pyFirstNumber confStr with
        | some v =>
          let v := if 1 < v then v / 100 else v
          { r with confidence := min (max v 0) 1 }
        | none => r
      else if pyStartsWith line "Reasoning:" then
        { r with reasoning := pyStrip (pyReplace line "Reasoning:" "") }
      else r) init

/-- The reasoning string installed by the heuristic override. -/
def overrideReasoning : String :=
  "Overridden by heuristic: Appears to be a person" ++ apostropheChar.toString ++ "s name"

/-- The fallback result of `spell_correct_influencer_name` when the LLM call
fails entirely (lines 274-284). -/
def spellCorrectFallback (query : String) : SpellResult :=
  let isLikelyName := _looks_like_name query
  { is_influencer := isLikelyName
    corrected_name := query
    original_query := query
    confidence := if isLikelyName then 7/10 else 1/5
    reasoning := "AI spelling correction failed, using heuristic name detection" }

/-- Embedding of `api_clients.spell_correct_influencer_name` (lines 205-284,
blocking form).  The LLM response is an oracle input; a `none` or empty
response is falsy and routes to the heuristic fallback. -/
def spell_correct_influencer_name (query : String) (llmResponse : Option String) :
    SpellResult :=
  match llmResponse with
  | some resp =>
    if resp = "" then spellCorrectFallback query
    else
      let result := parse_spelling_correction_response resp query
      if !result.is_influencer && _looks_like_name query then
        { result with is_influencer := true, confidence := 3/4,
                      reasoning := overrideReasoning }
      else result
  | none => spellCorrectFallback query

/-- Embedding of `api_clients.spell_correct_influencer_name_async`
(lines 287-354, suspending form): identical parsing and override logic; the
transport difference is absorbed into the oracle response. -/
def spell_correct_influencer_name_async (query : String) (llmResponse : Option String) :
    SpellResult :=
  match llmResponse with
  | some resp =>
    if resp = "" then spellCorrectFallback query
    else
      let result := parse_spelling_correction_response resp query
      if !result.is_influencer && _looks_like_name query then
        { result with is_influencer := true, confidence := 3/4,
                      reasoning := overrideReasoning }
      else result
  | none => spellCorrectFallback query

/-- Claim C3: whenever the parsed LLM response reports not-an-influencer but
the heuristic reports name-like, both the blocking and the suspending form of
the resolver override the LLM: the result has `is_influencer = true` and
confidence exactly 0.75. -/
theorem spell_correct_override_law (q resp : String)
    (hparsed : (parse_spelling_correction_response resp q).is_influencer = false)
    (hname : _looks_like_name q = true) :
    (spell_correct_influencer_name q (some resp)).is_influencer = true ∧
    (spell_correct_influencer_name q (some resp)).confidence = 3/4 ∧
    (spell_correct_influencer_name_async q (some resp)).is_influencer = true ∧
    (spell_correct_influencer_name_async q (some resp)).confidence = 3/4 := by
  have hresp : ¬(resp = "") := by
    intro h
    rw [h] at hparsed
    have hdef : (parse_spelling_correction_response "" q).is_influencer = true := rfl
    rw [hdef] at hparsed
    cases hparsed
  refine ⟨?_, ?_, ?_, ?_⟩ <;>
    simp [spell_correct_influencer_name, spell_correct_influencer_name_async,
          if_neg hresp, hparsed, hname]

/-- Witness for C3: the reply `"Is Influencer: No"` for the name-like query
`"john smith"` is overridden to influencer with confidence 0.75 in both forms. -/
theorem spell_correct_override_law_witness :
    (spell_correct_influencer_name "john smith" (some "Is Influencer: No")).is_influencer
        = true ∧
    (spell_correct_influencer_name "john smith" (some "Is Influencer: No")).confidence
        = 3/4 ∧
    (spell_correct_influencer_name_async "john smith" (some "Is Influencer: No")).is_influencer
        = true ∧
    (spell_correct_influencer_name_async "john smith" (some "Is Influencer: No")).confidence
        = 3/4 :=
  spell_correct_override_law "john smith" "Is Influencer: No" (by decide) (by decide)

/-! ## Candidate filter (`workflow_logic.build_search_query_and_filter_candidates`,
lines 39-98) -/

/-- One organic web-search hit (link/title/snippet), as consumed from the
search service response. -/
structure OrganicResult where
  link : String
  title : String
  snippet : String
deriving Repr, DecidableEq

/-- One filtered Instagram-profile candidate; `fallback` marks the loose
fallback candidate of lines 88-96. -/
structure Candidate where
  title : String
  url : String
  snippet : String
  fallback : Bool
deriving Repr, DecidableEq

/-- Hostname and path of a URL as `urllib.parse.urlparse` reports them for the
`scheme://host/path` URLs this pipeline handles: without a `://` the whole
string is the path and the hostname is `None`; the hostname is lowercased. -/
structure ParsedNetUrl where
  hostname : Option String
  path : String

/-- Model of `urllib.parse.urlparse` restricted to hostname and path. -/
def urlparseHostPath (s : String) : ParsedNetUrl :=
  if pyContains s "://" then
    let parts := pySplitOn s "://"
    let rest := pyJoin "://" parts.tail
    let segs := pySplitOn rest "/"
    let netloc := segs.headD ""
    let path := if segs.length ≤ 1 then "" else "/" ++ pyJoin "/" segs.tail
    { hostname := if netloc = "" then none else some (pyLower netloc), path := path }
  else { hostname := none, path := s }

/-- Line 57: `str(item.get('link', '')).split('?')[0].rstrip('/')`. -/
def cleanLink (link : String) : String := pyRstrip (pyBeforeFirst link "?") '/'

/-- One character of the handle pattern `[a-z0-9._]` (case-insensitive). -/
def validHandleChar (c : Char) : Bool := c.isAlphanum || c == '.' || c == '_'

/-- Line 71: `re.match(r"^[a-z0-9._]+$", user, re.IGNORECASE)`. -/
def isValidHandle (u : String) : Bool := !u.isEmpty && u.toList.all validHandleChar

/-- The candidate-filtering loop of lines 55-86: clean the link, require an
instagram host, exactly one valid path segment, and an unseen lowercase
handle. -/
def filterCandidatesLoop : List OrganicResult → List String → List Candidate
  | [], _ => []
  | item :: rest, seen =>
    let url := cleanLink item.link
    let parsed := urlparseHostPath url
    let hostOk := match parsed.hostname with
      | none => false
      | some host => pyContains host "instagram.com"
    let segs := (pySplitOn parsed.path "/").filter (· ≠ "")
    let user := segs.headD ""
    if url = "" then filterCandidatesLoop rest seen
    else if !hostOk then filterCandidatesLoop rest seen
    else if segs.length ≠ 1 then filterCandidatesLoop rest seen
    else if !isValidHandle user then filterCandidatesLoop rest seen
    else if seen.contains (pyLower user) then filterCandidatesLoop rest seen
    else { title := item.title, url := url, snippet := item.snippet, fallback := false }
           :: filterCandidatesLoop rest (pyLower user :: seen)

/-- The normalization dict consumed by the candidate filter
(`search_name` / `aliases` / `handles`). -/
structure NormData where
  search_name : String
  aliases : List String
  handles : List String

/-- Embedding of `workflow_logic.build_search_query_and_filter_candidates`
(lines 39-98): disjunctive search string plus filtered, deduplicated
candidates, with the loose single-candidate fallback of lines 88-96. -/
def build_search_query_and_filter_candidates (norm : NormData) (fallbackQuery : String)
    (organic : List OrganicResult) : String × List Candidate :=
  let searchName := pyStrip norm.search_name
  let terms := dedupPreserve
    (((searchName :: norm.aliases) ++ norm.handles).filter
      (fun t => t ≠ "" && pyStrip t ≠ ""))
  let searchQuery := if terms = [] then fallbackQuery else pyJoin " OR " terms
  let candidates := filterCandidatesLoop organic []
  let candidates :=
    if candidates = [] && organic ≠ [] then
      match organic.find? (fun i => pyContains i.link "instagram.com/") with
      | some firstIg =>
        [{ title := firstIg.title, url := cleanLink firstIg.link,
           snippet := firstIg.snippet, fallback := true }]
      | none => []
    else candidates
  (searchQuery, candidates)

/-- Spec-side validity of a kept candidate URL: an instagram hostname and
exactly one valid path segment. -/
def candidateUrlOk (url : String) : Bool :=
  (match (urlparseHostPath url).hostname with
   | none => false
   | some host => pyContains host "instagram.com") &&
  ((pySplitOn (urlparseHostPath url).path "/").filter (· ≠ "")).length == 1 &&
  isValidHandle (((pySplitOn (urlparseHostPath url).path "/").filter (· ≠ "")).headD "")

/-- Spec-side handle of a candidate URL: its single path segment, lowercased. -/
def handleOf (url : String) : String :=
  pyLower (((pySplitOn (urlparseHostPath url).path "/").filter (· ≠ "")).headD "")

/-- Spec-side checker: every candidate has a valid URL and the lowercase
handles are pairwise distinct and disjoint from the already-seen set. -/
def candidatesOk : List String → List Candidate → Bool
  | _, [] => true
  | seen, c :: cs =>
    candidateUrlOk c.url && !(seen.contains (handleOf c.url)) &&
      candidatesOk (handleOf c.url :: seen) cs

/-- Soundness of the strict filter loop (lines 55-86): every emitted candidate
has a valid instagram URL and an unseen lowercase handle. -/
theorem filterCandidatesLoop_sound (organic : List OrganicResult)
    (seen : List String) :
    candidatesOk seen (filterCandidatesLoop organic seen) = true := by
  induction organic generalizing seen with
  | nil => rfl
  | cons item rest ih =>
    simp only [filterCandidatesLoop]
    split
    next => exact ih seen
    next h1 =>
      split
      next => exact ih seen
      next h2 =>
        split
        next => exact ih seen
        next h3 =>
          split
          next => exact ih seen
          next h4 =>
            split
            next h5 => exact ih seen
            next h5 =>
              simp only [candidatesOk, candidateUrlOk, handleOf]
              rw [Bool.not_eq_true] at h2 h4 h5
              rw [Bool.not_eq_false'] at h2 h4
              have h3' : ((pySplitOn (urlparseHostPath (cleanLink item.link)).path "/").filter
                  (· ≠ "")).length = 1 := by omega
              simp only [h2, h3', h4, h5, beq_self_eq_true, Bool.true_and, Bool.and_true,
                Bool.not_false]
              exact ih _

/-- Counterexample for C5 as literally stated: on the single organic hit
`https://instagram.com/p/ABC/?x` the strict filter keeps nothing, so the
fallback branch of lines 88-96 keeps that hit as a candidate (flagged
`fallback := true`) although its cleaned URL has two path segments - the
function does keep a search hit that violates the claimed
hostname/single-path-segment condition. -/
theorem candidate_filter_fallback_counterexample :
    (build_search_query_and_filter_candidates ⟨"Foo Name", [], []⟩ "foo"
        [⟨"https://instagram.com/p/ABC/?x", "t1", "s1"⟩]).2
      = [{ title := "t1", url := "https://instagram.com/p/ABC", snippet := "s1",
           fallback := true }] ∧
    candidateUrlOk "https://instagram.com/p/ABC" = false :=
  ⟨by decide, by decide⟩

/-- Claim C5 (amended): every candidate kept by the strict filter has - after
query stripping and trailing-slash removal - an instagram hostname and exactly
one valid path segment, and candidates are deduplicated by lowercase handle;
`build_search_query_and_filter_candidates` returns either such a strictly
filtered list or, when strict filtering keeps nothing but raw results exist, a
single fallback candidate flagged `fallback := true` (whose link merely
contains `instagram.com/` and may violate the strict condition); and the two
organic hits `https://instagram.com/foo/?hl=en` and
`https://instagram.com/foo` produce exactly one candidate with handle `foo`. -/
theorem candidate_filter_spec :
    (∀ (organic : List OrganicResult) (seen : List String),
      candidatesOk seen (filterCandidatesLoop organic seen) = true) ∧
    (∀ (norm : NormData) (fallbackQuery : String) (organic : List OrganicResult),
      candidatesOk []
          (build_search_query_and_filter_candidates norm fallbackQuery organic).2 = true ∨
      ((build_search_query_and_filter_candidates norm fallbackQuery organic).2.length = 1 ∧
        (build_search_query_and_filter_candidates norm fallbackQuery organic).2.all
          (fun c => c.fallback) = true)) ∧
    (build_search_query_and_filter_candidates ⟨"Foo Name", [], []⟩ "foo"
        [⟨"https://instagram.com/foo/?hl=en", "t1", "s1"⟩,
         ⟨"https://instagram.com/foo", "t2", "s2"⟩]).2
      = [{ title := "t1", url := "https://instagram.com/foo", snippet := "s1",
           fallback := false }] ∧
    handleOf "https://instagram.com/foo" = "foo" := by
  refine ⟨filterCandidatesLoop_sound, ?_, by decide, by decide⟩
  intro norm fallbackQuery organic
  unfold build_search_query_and_filter_candidates
  dsimp only
  split
  next hcond =>
    split
    next firstIg hfind =>
      right
      exact ⟨rfl, rfl⟩
    next hfind =>
      left
      rfl
  next hcond =>
    left
    exact filterCandidatesLoop_sound organic []

/-! ## Post analysis data and metrics (`workflow_logic.py` lines 125-330)

Python floats are modelled as exact rationals; `statistics.stdev` forces the
reals in exactly two derived fields.  The ISO timestamp string of a post is
modelled by its parsed value (`safe_parse_timestamp` yields a datetime or
`None`), as an optional Unix-seconds rational. -/

/-- One analyzed post as produced by `analyze_instagram_posts`
(lines 168-184). -/
structure PostData where
  username : String
  ownerUsername : String
  postId : String
  postType : String
  postUrl : String
  timestamp : Option ℚ
  topic : String
  likesCount : ℕ
  commentsCount : ℕ
  videoViewCount : ℕ
  videoPlayCount : ℕ
  topCommentText : String
  topCommentLikes : ℕ
  isAd : Bool
  mentions : List String
  hashtags : List String
deriving Repr, DecidableEq

/-- The per-post record built inside `aggregate_post_metrics` (lines 204-223):
likes, comments, merged view count, engagement rate, flags and tags. -/
structure AnalyzedStats where
  likes : ℕ
  comments : ℕ
  views : ℕ
  er : ℚ
  isAd : Bool
  hashtags : List String
  mentions : List String
  ts : Option ℚ
deriving Repr, DecidableEq

/-- Lines 205-209: per-post engagement rate with the zero-view fallback. -/
def analyzedStatsOf (p : PostData) : AnalyzedStats :=
  let likes := p.likesCount
  let comments := p.commentsCount
  let views := max p.videoViewCount p.videoPlayCount
  let er : ℚ :=
    if 0 < views then ((likes : ℚ) + comments) / views
    else ((likes : ℚ) + comments) / (max likes 1 : ℕ)
  { likes := likes, comments := comments, views := views, er := er,
    isAd := p.isAd, hashtags := p.hashtags, mentions := p.mentions, ts := p.timestamp }

/-- Python `statistics.mean` (callers guard against empty lists). -/
def listMean (l : List ℚ) : ℚ := l.sum / l.length

/-- Sample variance with Bessel correction, as under `statistics.stdev`. -/
def sampleVariance (l : List ℚ) : ℚ :=
  ((l.map (fun x => (x - listMean l) ^ 2)).sum) / ((l.length : ℚ) - 1)

/-- Python `statistics.stdev`: square root of the sample variance. -/
noncomputable def sampleStdev (l : List ℚ) : ℝ := Real.sqrt ((sampleVariance l : ℚ) : ℝ)

/-- Counting dict in first-occurrence order: one increment step. -/
def bumpCount : List (String × ℕ) → String → List (String × ℕ)
  | [], h => [(h, 1)]
  | (k, v) :: rest, h =>
    if k = h then (k, v + 1) :: rest else (k, v) :: bumpCount rest h

/-- Occurrence counts of a tag list, in first-occurrence order (Python dict
insertion order). -/
def countOccurrences (l : List String) : List (String × ℕ) := l.foldl bumpCount []

/-- The aggregated-metrics dict of `aggregate_post_metrics` (lines 248-265). -/
structure AggregateMetrics where
  username : String
  postsAnalyzed : ℕ
  avgEngagement_all : ℚ
  avgEngagement_organic : ℚ
  avgEngagement_sponsored : ℚ
  avgLikes : ℚ
  avgComments : ℚ
  avgViews : ℚ
  stdevEngagement : ℝ
  consistencyScore : ℝ
  organicPct : ℚ
  postingAvgDays : Option ℚ
  commentShare : ℚ
  commentsPer10kViews : ℚ
  adDisclosurePct : ℚ
  hashtagCounts : List (String × ℕ)

/-- The empty metrics dict `{}` returned for an empty post list, modelled
through the default each reader applies (`.get('consistencyScore', 75)`,
every other key defaulting to 0 / empty). -/
noncomputable def emptyMetrics : AggregateMetrics :=
  { username := "", postsAnalyzed := 0, avgEngagement_all := 0,
    avgEngagement_organic := 0, avgEngagement_sponsored := 0,
    avgLikes := 0, avgComments := 0, avgViews := 0,
    stdevEngagement := 0, consistencyScore := 75, organicPct := 0,
    postingAvgDays := none, commentShare := 0, commentsPer10kViews := 0,
    adDisclosurePct := 0, hashtagCounts := [] }

/-- Embedding of `workflow_logic.aggregate_post_metrics` (lines 195-272). -/
noncomputable def aggregate_post_metrics (posts : List PostData) : AggregateMetrics :=
  match posts with
  | [] => emptyMetrics
  | p0 :: _ =>
    let aps := posts.map analyzedStatsOf
    let ers := (aps.map (·.er)).filter (fun e => decide (0 < e))
    let ersOrg := ((aps.filter (fun a => !a.isAd && decide (0 < a.er))).map (·.er))
    let ersSpon := ((aps.filter (fun a => a.isAd && decide (0 < a.er))).map (·.er))
    let stdevEr : ℝ := if 1 < ers.length then sampleStdev ers else 0
    let consistency : ℝ := max 0 (min 85 (100 - stdevEr * 10))
    let timestamps :=
      (((aps.filterMap (·.ts)).filter (fun t => t ≠ 0)).mergeSort (fun a b => decide (a ≤ b)))
    let avgDays : Option ℚ :=
      if 1 < timestamps.length then
        some (listMean ((timestamps.zip timestamps.tail).map
          (fun pr => (pr.2 - pr.1) / (24 * 3600))))
      else none
    let totalLikes : ℕ := (aps.map (·.likes)).sum
    let totalComments : ℕ := (aps.map (·.comments)).sum
    let totalViews : ℕ := (aps.map (·.views)).sum
    { username := p0.username
      postsAnalyzed := posts.length
      avgEngagement_all := if ers ≠ [] then listMean ers else 0
      avgEngagement_organic := if ersOrg ≠ [] then listMean ersOrg else 0
      avgEngagement_sponsored := if ersSpon ≠ [] then listMean ersSpon else 0
      avgLikes := listMean (aps.map (fun a => (a.likes : ℚ)))
      avgComments := listMean (aps.map (fun a => (a.comments : ℚ)))
      avgViews := listMean (aps.map (fun a => (a.views : ℚ)))
      stdevEngagement := stdevEr
      consistencyScore := consistency
      organicPct := ((ersOrg.length : ℚ) / posts.length) * 100
      postingAvgDays := avgDays
      commentShare :=
        if 0 < totalLikes + totalComments then
          (totalComments : ℚ) / ((totalLikes : ℚ) + (totalComments : ℚ))
        else 0
      commentsPer10kViews :=
        if 0 < totalViews then ((totalComments : ℚ) / (totalViews : ℚ)) * 10000 else 0
      adDisclosurePct := 100
      hashtagCounts := countOccurrences (aps.flatMap (·.hashtags)) }

/-! ## Rounding (Python `round`: banker's rounding to `k` decimal digits) -/

/-- Round a rational to the nearest integer, ties to even. -/
def roundHalfEvenZ (y : ℚ) : ℤ :=
  let n := ⌊y⌋
  let frac := y - n
  if frac < 1/2 then n
  else if 1/2 < frac then n + 1
  else if n % 2 = 0 then n else n + 1

/-- Python `round(x, k)` on exact rationals. -/
def pyRoundQ (k : ℕ) (x : ℚ) : ℚ := (roundHalfEvenZ (x * 10 ^ k) : ℚ) / 10 ^ k

open Classical in
/-- Round a real to the nearest integer, ties to even. -/
noncomputable def roundHalfEvenR (y : ℝ) : ℤ :=
  let n := ⌊y⌋
  if y - n < 1/2 then n
  else if 1/2 < y - n then n + 1
  else if n % 2 = 0 then n else n + 1

/-- Python `round(x, 1)` over the reals. -/
noncomputable def pyRound1R (x : ℝ) : ℝ := (roundHalfEvenR (x * 10) : ℝ) / 10

/-! ## Deterministic fallback scorer (`workflow_logic.calculate_scores_manually`,
lines 274-330) -/

/-- The flat scores dict produced by the scoring stage. -/
structure ManualScores where
  username : String
  postsAnalyzed : ℕ
  avgER_organic : ℚ
  avgER_sponsored : ℚ
  avgLikes : ℚ
  avg_sponsored_likes : ℚ
  avgComments : ℚ
  avg_sponsored_comments : ℚ
  avgViews : ℚ
  Authenticity : ℝ
  BrandSafety : ℝ
  AudienceMatch : ℝ
  ContentQuality : ℝ

/-- Embedding of `workflow_logic.calculate_scores_manually` (lines 274-311). -/
noncomputable def calculate_scores_manually (metrics : AggregateMetrics)
    (username : String) : ManualScores :=
  let consistency := metrics.consistencyScore
  let commentShare := metrics.commentShare
  let c10k := metrics.commentsPer10kViews
  let authenticity : ℝ := max 0 (min 100 consistency)
  let brandSafety : ℝ := 85
  let audienceMatch : ℝ := if metrics.hashtagCounts = [] then 70 else 75
  let contentQuality : ℝ :=
    max 0 (min 100 (60 + (commentShare : ℝ) * 30 + min 20 ((c10k : ℝ) / 5)))
  { username := username
    postsAnalyzed := metrics.postsAnalyzed
    avgER_organic := pyRoundQ 6 metrics.avgEngagement_organic
    avgER_sponsored := pyRoundQ 6 metrics.avgEngagement_sponsored
    avgLikes := pyRoundQ 0 metrics.avgLikes
    avg_sponsored_likes := 0
    avgComments := pyRoundQ 0 metrics.avgComments
    avg_sponsored_comments := 0
    avgViews := pyRoundQ 0 metrics.avgViews
    Authenticity := pyRound1R authenticity
    BrandSafety := pyRound1R brandSafety
    AudienceMatch := pyRound1R audienceMatch
    ContentQuality := pyRound1R contentQuality }

/-- Evaluation of the banker's rounding when the fractional part is below one
half. -/
theorem roundHalfEvenR_of_lt_half (y : ℝ) (n : ℤ) (hfl : ⌊y⌋ = n)
    (h : y - n < 1/2) : roundHalfEvenR y = n := by
  simp only [roundHalfEvenR, hfl]
  rw [if_pos h]

/-- Evaluation of the banker's rounding when the fractional part is above one
half. -/
theorem roundHalfEvenR_of_half_lt (y : ℝ) (n : ℤ) (hfl : ⌊y⌋ = n)
    (h : 1/2 < y - n) : roundHalfEvenR y = n + 1 := by
  simp only [roundHalfEvenR, hfl]
  rw [if_neg (by linarith), if_pos h]

/-- Rounding to one decimal fixes integer values. -/
theorem pyRound1R_int (k : ℤ) : pyRound1R (k : ℝ) = k := by
  have hfl : ⌊(k : ℝ) * 10⌋ = 10 * k := by
    rw [show ((k : ℝ) * 10) = ((10 * k : ℤ) : ℝ) by push_cast; ring, Int.floor_intCast]
  rw [pyRound1R, roundHalfEvenR_of_lt_half _ _ hfl (by push_cast; linarith)]
  push_cast
  ring

/-- Claim C6 (amended): the deterministic fallback scorer returns
Authenticity = round₁(clamp(consistency, 0, 100)), BrandSafety = 85,
AudienceMatch = 75 when a hashtag was observed else 70, and ContentQuality =
round₁(clamp(60 + 30·commentShare + min(20, commentsPer10kViews/5), 0, 100)),
where round₁ is Python rounding (half to even) to one decimal digit. -/
theorem manual_scores_spec (metrics : AggregateMetrics) (username : String) :
    (calculate_scores_manually metrics username).Authenticity
        = pyRound1R (max 0 (min 100 metrics.consistencyScore)) ∧
    (calculate_scores_manually metrics username).BrandSafety = 85 ∧
    (calculate_scores_manually metrics username).AudienceMatch
        = (if metrics.hashtagCounts = [] then (70 : ℝ) else 75) ∧
    (calculate_scores_manually metrics username).ContentQuality
        = pyRound1R (max 0 (min 100 (60 + (metrics.commentShare : ℝ) * 30 +
            min 20 ((metrics.commentsPer10kViews : ℝ) / 5)))) := by
  refine ⟨rfl, ?_, ?_, rfl⟩
  · show pyRound1R 85 = 85
    exact_mod_cast pyRound1R_int 85
  · show pyRound1R (if metrics.hashtagCounts = [] then (70 : ℝ) else 75) = _
    by_cases hh : metrics.hashtagCounts = []
    · rw [if_pos hh]
      exact_mod_cast pyRound1R_int 70
    · rw [if_neg hh]
      exact_mod_cast pyRound1R_int 75

/-- Metrics input exhibiting the rounding behaviour of the fallback scorer. -/
noncomputable def metricsCx : AggregateMetrics :=
  { emptyMetrics with consistencyScore := 8458/100, commentShare := 9/1000,
                      commentsPer10kViews := 0, hashtagCounts := [] }

/-- Counterexample for C6 as literally stated: on a metrics input with
consistency score 84.58 and comment share 0.009, the scorer does not return
the bare clamped values (it rounds them to one decimal: 84.6 and 60.3). -/
theorem manual_scores_unrounded_counterexample :
    (calculate_scores_manually metricsCx "u").Authenticity
        ≠ max 0 (min 100 metricsCx.consistencyScore) ∧
    (calculate_scores_manually metricsCx "u").ContentQuality
        ≠ max 0 (min 100 (60 + (metricsCx.commentShare : ℝ) * 30 +
            min 20 ((metricsCx.commentsPer10kViews : ℝ) / 5))) := by
  have hcs : metricsCx.consistencyScore = 8458/100 := rfl
  have hsh : metricsCx.commentShare = 9/1000 := rfl
  have hc10 : metricsCx.commentsPer10kViews = 0 := rfl
  constructor
  · have h1 : max (0:ℝ) (min 100 (8458/100)) = 8458/100 := by
      rw [min_eq_right (by norm_num), max_eq_right (by norm_num)]
    have hfl : ⌊(8458/100 : ℝ) * 10⌋ = 845 := by
      rw [Int.floor_eq_iff]
      norm_num
    show pyRound1R (max 0 (min 100 metricsCx.consistencyScore)) ≠ _
    rw [hcs, h1, pyRound1R, roundHalfEvenR_of_half_lt _ 845 hfl (by norm_num)]
    norm_num
  · have h2 : (60 : ℝ) + (9/1000 : ℚ) * 30 + min 20 (((0:ℚ) : ℝ) / 5) = 6027/100 := by
      push_cast
      rw [show ((0:ℝ)/5) = 0 by norm_num, min_eq_right (by norm_num)]
      norm_num
    have h1 : max (0:ℝ) (min 100 (6027/100)) = 6027/100 := by
      rw [min_eq_right (by norm_num), max_eq_right (by norm_num)]
    have hfl : ⌊(6027/100 : ℝ) * 10⌋ = 602 := by
      rw [Int.floor_eq_iff]
      norm_num
    show pyRound1R (max 0 (min 100 (60 + (metricsCx.commentShare : ℝ) * 30 +
        min 20 ((metricsCx.commentsPer10kViews : ℝ) / 5)))) ≠ _
    rw [hsh, hc10, h2, h1, pyRound1R, roundHalfEvenR_of_half_lt _ 602 hfl (by norm_num)]
    norm_num

/-- Spec-side per-post engagement rate, following the spec's words:
`(likes+comments)/views` when views > 0, else `(likes+comments)/max(likes,1)`. -/
def specEngagementRate (p : PostData) : ℚ :=
  let views := max p.videoViewCount p.videoPlayCount
  if 0 < views then ((p.likesCount : ℚ) + p.commentsCount) / views
  else ((p.likesCount : ℚ) + p.commentsCount) / (max p.likesCount 1 : ℕ)

/-- Spec-side standard deviation: the sample standard deviation when at least
two rates are available, 0 otherwise. -/
noncomputable def specStdevOf (l : List ℚ) : ℝ :=
  if 1 < l.length then sampleStdev l else 0

/-- Claim C7 (amended): for a non-empty post list, each post is assigned the
engagement rate `(likes+comments)/views` when views > 0 and
`(likes+comments)/max(likes,1)` otherwise, and the consistency score is
`clamp(100 − 10·stdev, 0, 85)` where stdev is the sample standard deviation of
the posts' *positive* engagement rates (0 when fewer than two are available). -/
theorem aggregate_consistency_spec (posts : List PostData) (h : posts ≠ []) :
    posts.map (fun p => (analyzedStatsOf p).er) = posts.map specEngagementRate ∧
    (aggregate_post_metrics posts).consistencyScore
      = max 0 (min 85 (100 -
          specStdevOf ((posts.map specEngagementRate).filter
            (fun e => decide (0 < e))) * 10)) := by
  have her : ∀ p : PostData, (analyzedStatsOf p).er = specEngagementRate p := fun _ => rfl
  constructor
  · simp only [her]
  · match posts with
    | [] => exact absurd rfl h
    | p0 :: rest =>
      have hmap : ((p0 :: rest).map analyzedStatsOf).map (fun a => a.er)
          = (p0 :: rest).map specEngagementRate := by
        rw [List.map_map]
        simp only [Function.comp_def, her]
      simp only [aggregate_post_metrics, hmap, specStdevOf]

/-- A minimal post with the given like count: one view, no comments, organic. -/
def mkSimplePost (likes : ℕ) : PostData :=
  { username := "u", ownerUsername := "u", postId := "", postType := "Image",
    postUrl := "", timestamp := none, topic := "", likesCount := likes,
    commentsCount := 0, videoViewCount := 1, videoPlayCount := 0,
    topCommentText := "No comments found", topCommentLikes := 0,
    isAd := false, mentions := [], hashtags := [] }

/-- Counterexample for C7 as literally stated: for posts with like counts
4, 4, 0 (one view each), the code computes the consistency score from the
standard deviation of the *positive* engagement rates [4, 4] (giving 85); the
standard deviation over all engagement rates [4, 4, 0] would give
100 − 10·√(16/3) < 85. -/
theorem aggregate_consistency_counterexample :
    (aggregate_post_metrics
        [mkSimplePost 4, mkSimplePost 4, mkSimplePost 0]).consistencyScore
      ≠ max 0 (min 85 (100 -
          specStdevOf ([mkSimplePost 4, mkSimplePost 4, mkSimplePost 0].map
            specEngagementRate) * 10)) := by
  have hers : ((([mkSimplePost 4, mkSimplePost 4, mkSimplePost 0].map
      analyzedStatsOf).map (fun a => a.er)).filter (fun e => decide (0 < e)))
      = [4, 4] := by
    norm_num [analyzedStatsOf, mkSimplePost, List.filter]
  have hv : sampleVariance [4, 4] = 0 := by
    norm_num [sampleVariance, listMean]
  have hs : sampleStdev [4, 4] = 0 := by
    rw [sampleStdev, hv]
    norm_num [Real.sqrt_zero]
  have hLHS : (aggregate_post_metrics
      [mkSimplePost 4, mkSimplePost 4, mkSimplePost 0]).consistencyScore = 85 := by
    simp only [aggregate_post_metrics, hers, hs]
    norm_num
  have hrates : [mkSimplePost 4, mkSimplePost 4, mkSimplePost 0].map specEngagementRate
      = [4, 4, 0] := by
    norm_num [specEngagementRate, mkSimplePost]
  have hvar : sampleVariance [4, 4, 0] = 16/3 := by
    norm_num [sampleVariance, listMean]
  rw [hLHS, hrates, specStdevOf, if_pos (by norm_num : (1:ℕ) < ([4,4,0] : List ℚ).length),
    sampleStdev, hvar]
  have hcast : (((16/3 : ℚ) : ℝ)) = 16/3 := by norm_num
  rw [hcast]
  have hgt : (3/2 : ℝ) < Real.sqrt (16/3) := by
    rw [Real.lt_sqrt (by norm_num)]
    norm_num
  have hlt : (100 : ℝ) - Real.sqrt (16/3) * 10 < 85 := by linarith
  have hmax : max (0:ℝ) (min 85 (100 - Real.sqrt (16/3) * 10)) < 85 :=
    max_lt (by norm_num) (lt_of_le_of_lt (min_le_right _ _) hlt)
  exact ne_of_gt hmax

/-- Witness for C7 at the two-post list with like counts 2 and 2. -/
theorem aggregate_consistency_spec_witness :
    [mkSimplePost 2, mkSimplePost 2].map (fun p => (analyzedStatsOf p).er)
        = [mkSimplePost 2, mkSimplePost 2].map specEngagementRate ∧
    (aggregate_post_metrics [mkSimplePost 2, mkSimplePost 2]).consistencyScore
      = max 0 (min 85 (100 -
          specStdevOf (([mkSimplePost 2, mkSimplePost 2].map specEngagementRate).filter
            (fun e => decide (0 < e))) * 10)) :=
  aggregate_consistency_spec [mkSimplePost 2, mkSimplePost 2] (by decide)

/-! ## Profile store (`database.py`)

The flat JSON document `{profiles: {username -> profile}, metadata: ...}` is
an association list with dict update semantics; `datetime.now()` is an
explicit `now` parameter in Unix seconds (rationals, since Python datetimes
carry microseconds); an ISO timestamp field is modelled by its parsed value,
`none` standing for a missing or unparseable string (the `except` branch of
`check_profile_exists`); the success of the `save_database` file write is an
oracle Boolean. -/

/-- The `basic_info` section built by `insert_complete_profile`
(`database.py` lines 75-89). -/
structure BasicInfo where
  username : String
  name : String
  full_name : String
  instagram_url : String
  bio : String
  website : String
  profile_pic_url : String
  is_verified : Bool
  is_business_account : Bool
  category : String
  followers_count : ℕ
  following_count : ℕ
  posts_count : ℕ

/-- The `posts` section (lines 90-95). -/
structure PostsSection where
  total_posts : ℕ
  organic_posts : List PostData
  sponsored_posts : List PostData
  all_posts : List PostData

/-- The `analysis` section (lines 96-103). -/
structure AnalysisSection where
  metrics : AggregateMetrics
  scores : ManualScores
  engagement_rate : ℚ
  avg_likes : ℚ
  avg_comments : ℚ
  avg_views : ℚ

/-- The `brand_collaborations` section (lines 104-108). -/
structure CollabSection where
  total_sponsored_posts : ℕ
  brands_worked_with : List String
  sponsored_posts : List PostData

/-- The `hashtags` section (lines 109-112). -/
structure TagSection where
  most_used : List (String × ℕ)
  total_unique : ℕ

/-- The `mentions` section (lines 113-116). -/
structure MentionSection where
  most_mentioned : List (String × ℕ)
  total_mentions : ℕ

/-- The `metadata` section of a stored profile (lines 117-122). -/
structure ProfileMetadata where
  last_scraped : Option ℚ
  scraping_source : String
  analysis_version : String
  original_query : String

/-- One persisted `InfluencerProfile` record. -/
structure StoredProfile where
  basic_info : BasicInfo
  posts : PostsSection
  analysis : AnalysisSection
  brand_collaborations : CollabSection
  hashtags : TagSection
  mentions : MentionSection
  metadata : ProfileMetadata

/-- The persisted store: profiles dict plus metadata. -/
structure Database where
  profiles : List (String × StoredProfile)
  last_updated : ℚ
  total_profiles : ℕ

/-- Python dict assignment `d[k] = v`: replace in place or append. -/
def dictSet {α : Type} : List (String × α) → String → α → List (String × α)
  | [], k, v => [(k, v)]
  | (k0, v0) :: rest, k, v =>
    if k0 = k then (k0, v) :: rest else (k0, v0) :: dictSet rest k v

/-- Embedding of `database.check_profile_exists` (lines 44-62): lowercase-key
lookup and the 7-day freshness test `now - last_scraped < timedelta(days=7)`. -/
def check_profile_exists (db : Database) (now : ℚ) (username : String) :
    Bool × Option StoredProfile :=
  match db.profiles.lookup (pyLower username) with
  | none => (false, none)
  | some profileData =>
    match profileData.metadata.last_scraped with
    | none => (false, some profileData)
    | some lastScraped =>
      if now - lastScraped < 7 * 86400 then (true, some profileData)
      else (false, some profileData)

/-- Embedding of `database.get_profile_from_cache` (lines 174-177). -/
def get_profile_from_cache (db : Database) (username : String) : Option StoredProfile :=
  db.profiles.lookup (pyLower username)

/-- Top-20 tags by descending count (`sorted(..., key=count, reverse=True)[:20]`,
stable for equal counts). -/
def topByCount (l : List (String × ℕ)) : List (String × ℕ) :=
  (l.mergeSort (fun a b => decide (b.2 ≤ a.2))).take 20

/-- The merged profile-info dict handed to `insert_complete_profile`; a key
missing from the dict is its `.get` default (empty string / 0 / false). -/
structure ProfileInfo where
  input : String
  name : String
  username : String
  full_name : String
  instagram_url : String
  bio : String
  website : String
  profile_pic_url : String
  is_verified : Bool
  is_business_account : Bool
  category : String
  followers_count : ℕ
  following_count : ℕ
  posts_count : ℕ
  confidence : ℚ
  reason : String

/-- Embedding of `database.insert_complete_profile` (lines 64-172): refuse an
empty username, otherwise build the full record (post partition, brand set,
top-20 hashtag/mention counts) and upsert it under the lowercased username;
`saveOk` is the outcome of the `save_database` file write, on failure the
persisted store is unchanged.  Python's `set` iteration order for
`brands_worked_with` is unspecified; first-occurrence order is used here. -/
def insert_complete_profile (db : Database) (now : ℚ) (saveOk : Bool)
    (profileInfo : ProfileInfo) (postsData : List PostData)
    (metricsData : AggregateMetrics) (scoresData : ManualScores) :
    Bool × Database :=
  let username := pyLower profileInfo.username
  if username = "" then (false, db)
  else
    let sponsoredPosts := postsData.filter (·.isAd)
    let organicPosts := postsData.filter (fun p => !p.isAd)
    let hashtagCounts := countOccurrences (postsData.flatMap (·.hashtags))
    let mentionCounts := countOccurrences (postsData.flatMap (·.mentions))
    let brands := dedupPreserve (sponsoredPosts.flatMap (·.mentions))
    let profileData : StoredProfile :=
      { basic_info :=
          { username := profileInfo.username, name := profileInfo.name,
            full_name := profileInfo.full_name,
            instagram_url := profileInfo.instagram_url, bio := profileInfo.bio,
            website := profileInfo.website,
            profile_pic_url := profileInfo.profile_pic_url,
            is_verified := profileInfo.is_verified,
            is_business_account := profileInfo.is_business_account,
            category := profileInfo.category,
            followers_count := profileInfo.followers_count,
            following_count := profileInfo.following_count,
            posts_count := profileInfo.posts_count }
        posts :=
          { total_posts := postsData.length, organic_posts := organicPosts,
            sponsored_posts := sponsoredPosts, all_posts := postsData }
        analysis :=
          { metrics := metricsData, scores := scoresData,
            engagement_rate := metricsData.avgEngagement_all,
            avg_likes := metricsData.avgLikes,
            avg_comments := metricsData.avgComments,
            avg_views := metricsData.avgViews }
        brand_collaborations :=
          { total_sponsored_posts := sponsoredPosts.length,
            brands_worked_with := brands, sponsored_posts := sponsoredPosts }
        hashtags :=
          { most_used := topByCount hashtagCounts,
            total_unique := hashtagCounts.length }
        mentions :=
          { most_mentioned := topByCount mentionCounts,
            total_mentions := (mentionCounts.map (·.2)).sum }
        metadata :=
          { last_scraped := some now, scraping_source := "apify",
            analysis_version := "1.0", original_query := profileInfo.input } }
    let newProfiles := dictSet db.profiles username profileData
    if saveOk then
      (true, { profiles := newProfiles, last_updated := now,
               total_profiles := newProfiles.length })
    else (false, db)

/-- Claim C2: a cached profile older than 7 days is classified stale (found
false, record still returned) and one younger than 7 days is classified fresh
(found true with the record); ages are in seconds, 7 days = 604800 s. -/
theorem staleness_boundary (db : Database) (now : ℚ) (u : String)
    (prof : StoredProfile) (t : ℚ)
    (hget : db.profiles.lookup (pyLower u) = some prof)
    (ht : prof.metadata.last_scraped = some t) :
    (7 * 86400 < now - t → check_profile_exists db now u = (false, some prof)) ∧
    (now - t < 7 * 86400 → check_profile_exists db now u = (true, some prof)) := by
  constructor
  · intro hstale
    simp only [check_profile_exists, hget, ht]
    rw [if_neg (by linarith)]
  · intro hfresh
    simp only [check_profile_exists, hget, ht]
    rw [if_pos hfresh]

/-- The profile-only default scores of `main.run_workflow` (lines 209-223). -/
noncomputable def profileOnlyScores (username : String) : ManualScores :=
  { username := username, postsAnalyzed := 0, avgER_organic := 0,
    avgER_sponsored := 0, avgLikes := 0, avg_sponsored_likes := 0,
    avgComments := 0, avg_sponsored_comments := 0, avgViews := 0,
    Authenticity := 70, BrandSafety := 85, AudienceMatch := 60,
    ContentQuality := 65 }

/-- A concrete stored profile for witnesses: username `foo`, scraped at time 0. -/
noncomputable def witnessProfile : StoredProfile :=
  { basic_info :=
      { username := "foo", name := "Foo", full_name := "", instagram_url := "",
        bio := "", website := "", profile_pic_url := "", is_verified := false,
        is_business_account := false, category := "", followers_count := 0,
        following_count := 0, posts_count := 0 }
    posts := { total_posts := 0, organic_posts := [], sponsored_posts := [],
               all_posts := [] }
    analysis := { metrics := emptyMetrics, scores := profileOnlyScores "foo",
                  engagement_rate := 0, avg_likes := 0, avg_comments := 0,
                  avg_views := 0 }
    brand_collaborations := { total_sponsored_posts := 0, brands_worked_with := [],
                              sponsored_posts := [] }
    hashtags := { most_used := [], total_unique := 0 }
    mentions := { most_mentioned := [], total_mentions := 0 }
    metadata := { last_scraped := some 0, scraping_source := "apify",
                  analysis_version := "1.0", original_query := "foo" } }

/-- A one-profile store holding `witnessProfile` under key `foo`. -/
noncomputable def witnessDb : Database :=
  { profiles := [("foo", witnessProfile)], last_updated := 0, total_profiles := 1 }

/-- Witness for C2: at age 604801 s (7 days + 1 s) the record is stale; at age
604799 s (6 days 23:59:59) it is fresh. -/
theorem staleness_boundary_witness :
    check_profile_exists witnessDb 604801 "foo" = (false, some witnessProfile) ∧
    check_profile_exists witnessDb 604799 "foo" = (true, some witnessProfile) :=
  ⟨(staleness_boundary witnessDb 604801 "foo" witnessProfile 0 rfl rfl).1 (by norm_num),
   (staleness_boundary witnessDb 604799 "foo" witnessProfile 0 rfl rfl).2 (by norm_num)⟩

/-- Claim C10: an insert with a missing or empty username returns `False` and
leaves the persisted store unchanged. -/
theorem insert_empty_username_no_write (db : Database) (now : ℚ) (saveOk : Bool)
    (profileInfo : ProfileInfo) (postsData : List PostData)
    (metricsData : AggregateMetrics) (scoresData : ManualScores)
    (h : profileInfo.username = "") :
    insert_complete_profile db now saveOk profileInfo postsData metricsData scoresData
      = (false, db) := by
  have hlow : pyLower profileInfo.username = "" := by rw [h]; rfl
  simp [insert_complete_profile, hlow]

/-- A profile-info dict whose username key is empty. -/
def emptyUserProfileInfo : ProfileInfo :=
  { input := "some query", name := "", username := "", full_name := "",
    instagram_url := "", bio := "", website := "", profile_pic_url := "",
    is_verified := false, is_business_account := false, category := "",
    followers_count := 0, following_count := 0, posts_count := 0,
    confidence := 0, reason := "" }

/-- Witness for C10: inserting with an empty username into the one-profile
store fails and leaves it unchanged. -/
theorem insert_empty_username_no_write_witness :
    insert_complete_profile witnessDb 1 true emptyUserProfileInfo []
        emptyMetrics (profileOnlyScores "x") = (false, witnessDb) :=
  insert_empty_username_no_write witnessDb 1 true emptyUserProfileInfo []
    emptyMetrics (profileOnlyScores "x") rfl

/-! ## Post analysis (`workflow_logic.analyze_instagram_posts`, lines 125-193)

A raw Apify post object; its ISO timestamp is modelled by its parsed value. -/

/-- One raw comment under a post. -/
structure RawComment where
  text : String
  likesCount : ℕ
deriving Repr, DecidableEq

/-- One raw scraped post object. -/
structure RawPost where
  id : String
  type : String
  url : String
  timestamp : Option ℚ
  caption : String
  text : String
  likesCount : ℕ
  commentsCount : ℕ
  videoViewCount : ℕ
  videoPlayCount : ℕ
  latestComments : List RawComment
  hashtags : List String
  mentions : List String
  paidPartnership : Bool
  isSponsored : Bool
  ownerUsername : Option String
deriving Repr, DecidableEq

/-- Python `max(comments, key=likes)`: the first comment with maximal likes. -/
def pyMaxByLikes : List RawComment → Option RawComment
  | [] => none
  | c :: rest =>
    match pyMaxByLikes rest with
    | none => some c
    | some m => if m.likesCount > c.likesCount then some m else some c

/-- `caption.split('\n')[0][:100]` (line 166). -/
def firstLine100 (s : String) : String :=
  ((pyBeforeFirst s "\n").toList.take 100).asString

/-- Embedding of `workflow_logic.analyze_instagram_posts` (lines 125-193);
`now` stands for the `datetime.now()` default timestamp of line 174. -/
def analyze_instagram_posts (postsData : List RawPost) (username : String)
    (now : ℚ) : List PostData :=
  postsData.map (fun post =>
    let topComment :=
      match pyMaxByLikes post.latestComments with
      | some best => (best.text, best.likesCount)
      | none => ("No comments found", 0)
    let isAd := post.hashtags.any (fun h => pyLower h = "ad") ||
      post.paidPartnership || post.isSponsored
    let caption :=
      if post.caption ≠ "" then post.caption
      else if post.text ≠ "" then post.text
      else "No caption"
    { username := username
      ownerUsername := post.ownerUsername.getD username
      postId := post.id
      postType := post.type
      postUrl := post.url
      timestamp := some (post.timestamp.getD now)
      topic := firstLine100 caption
      likesCount := post.likesCount
      commentsCount := post.commentsCount
      videoViewCount := post.videoViewCount
      videoPlayCount := post.videoPlayCount
      topCommentText := topComment.1
      topCommentLikes := topComment.2
      isAd := isAd
      mentions := post.mentions
      hashtags := post.hashtags })

/-! ## Enrichment orchestrator (`main.run_workflow`, lines 32-246)

External calls are oracle inputs collected in `WorkflowEnv`: the parsed LLM
responses of the normalization / selection / scoring steps (`none` for a
failed `message_model` call), the search response, and the scrape response.
The scraped profile attributes are a dict merged over the formatted profile
dict (`profile_data.update(scraped_profile)`, line 168), modelled as a
function from the formatted dict to the merged dict. -/

/-- The profile dict chosen by the selection step. -/
structure SelectedProfile where
  name : String
  username : String
  instagram_url : String
  confidence : ℚ
deriving Repr, DecidableEq

/-- The dict produced by `workflow_logic.format_profile_data`. -/
structure FormattedProfile where
  input : String
  name : String
  username : Option String
  instagram_url : String
  confidence : ℚ
  reason : String
  timestamp : ℚ
deriving Repr, DecidableEq

/-- Python `s.lstrip(c)`. -/
def pyLstrip (s : String) (c : Char) : String :=
  (s.toList.dropWhile (· == c)).asString

/-- Python `s.endswith(suffix)` for a one-character suffix. -/
def pyEndsWith1 (s : String) (c : Char) : Bool :=
  s.toList.getLast? == some c

/-- `re.match(r"^https?:\/\/", url, re.IGNORECASE)` (line 106). -/
def matchesHttpPrefix (url : String) : Bool :=
  pyStartsWith (pyLower url) "http://" || pyStartsWith (pyLower url) "https://"

/-- Delimiters ending the username capture `[^\/?#]+`. -/
def igDelim (c : Char) : Bool := c == '/' || c == '?' || c == '#'

/-- `re.search(r"instagram\.com\/([^\/?#]+)", url, re.IGNORECASE)` (line 111):
scan left to right for a case-insensitive `instagram.com/` followed by at
least one non-delimiter character; capture that run. -/
def igCaptureAux : List Char → Option String
  | [] => none
  | c :: rest =>
    if ("instagram.com/".toList).isPrefixOf ((c :: rest).map lowerChar) then
      let cap := ((c :: rest).drop 14).takeWhile (fun ch => !igDelim ch)
      if cap.isEmpty then igCaptureAux rest
      else some cap.asString
    else igCaptureAux rest

/-- Username extraction from a normalized profile URL. -/
def extract_instagram_username (url : String) : Option String :=
  igCaptureAux url.toList

/-- Embedding of `workflow_logic.format_profile_data` (lines 100-123); `now`
stands for `datetime.now()` of line 122. -/
def format_profile_data (selected : SelectedProfile) (originalQuery : String)
    (now : ℚ) : FormattedProfile :=
  if selected.instagram_url = "" then
    { input := originalQuery, name := selected.name, username := none,
      instagram_url := selected.instagram_url, confidence := selected.confidence,
      reason := "", timestamp := now }
  else
    let url1 :=
      if !matchesHttpPrefix selected.instagram_url then
        "https://" ++ pyLstrip selected.instagram_url '/'
      else selected.instagram_url
    let url2 := if !pyEndsWith1 url1 '/' then url1 ++ "/" else url1
    { input := originalQuery, name := selected.name,
      username := extract_instagram_username url2,
      instagram_url := url2, confidence := selected.confidence,
      reason := "", timestamp := now }

/-- The base profile-info dict when no scraped attributes arrive: exactly the
keys of the formatted dict, every other `.get` defaulting. -/
def baseProfileInfo (fp : FormattedProfile) : ProfileInfo :=
  { input := fp.input, name := fp.name, username := fp.username.getD "",
    full_name := "", instagram_url := fp.instagram_url, bio := "",
    website := "", profile_pic_url := "", is_verified := false,
    is_business_account := false, category := "", followers_count := 0,
    following_count := 0, posts_count := 0, confidence := fp.confidence,
    reason := fp.reason }

/-- Oracle inputs of one `run_workflow` run. -/
structure WorkflowEnv where
  now : ℚ
  normalizedResp : Option NormData
  searchResults : Option (List OrganicResult)
  selectionResp : Option (Option SelectedProfile)
  scrapedProfile : Option (FormattedProfile → ProfileInfo)
  scrapedPosts : List RawPost
  scoringResp : Option ManualScores
  saveOk : Bool

/-- Steps 1-5 of `run_workflow` (validation, normalization, search, candidate
filtering, selection, formatting), shared by `run_workflow` and
`workflowSelectedUsername`. -/
def workflowPreamble (env : WorkflowEnv) (chatMessage : String) :
    Option FormattedProfile :=
  if chatMessage = "" || pyStrip chatMessage = "" then none
  else
    let normalizedData :=
      match env.normalizedResp with
      | none => { search_name := chatMessage, aliases := [], handles := [] }
      | some nd => nd
    match env.searchResults with
    | none => none
    | some searchResults =>
      let candidates :=
        (build_search_query_and_filter_candidates normalizedData chatMessage
          searchResults).2
      if candidates = [] then none
      else
        let selOpt : Option SelectedProfile :=
          match env.selectionResp with
          | none =>
            some { name := chatMessage,
                   username := (pySplitOn (candidates.headD ⟨"", "", "", false⟩).url
                     "/").getLastD "",
                   instagram_url := (candidates.headD ⟨"", "", "", false⟩).url,
                   confidence := 1/2 }
          | some p => p
        match selOpt with
        | none => none
        | some sp =>
          if sp.instagram_url = "" then none
          else some (format_profile_data sp chatMessage env.now)

/-- The canonical username selected by steps 1-5 of `run_workflow`. -/
def workflowSelectedUsername (env : WorkflowEnv) (chatMessage : String) :
    Option String :=
  (workflowPreamble env chatMessage).bind (fun fp => fp.username)

/-- Observable outcome of one `run_workflow` run: return value, resulting
persisted store, and number of external scrape calls issued. -/
structure WorkflowOutcome where
  result : Option StoredProfile
  db : Database
  scrapeCalls : ℕ

open Classical in
/-- Embedding of `main.run_workflow` (lines 32-246): steps 1-5 via
`workflowPreamble`, the cache check of step 6, and on a miss the
scrape-analyze-aggregate-score-persist pipeline of steps 7-11. -/
noncomputable def run_workflow (env : WorkflowEnv) (db : Database)
    (chatMessage : String) : WorkflowOutcome :=
  match workflowPreamble env chatMessage with
  | none => { result := none, db := db, scrapeCalls := 0 }
  | some profileData =>
    match profileData.username with
    | none => { result := none, db := db, scrapeCalls := 0 }
    | some username =>
      match check_profile_exists db env.now username with
      | (true, some cachedData) => { result := some cachedData, db := db, scrapeCalls := 0 }
      | _ =>
        let hasProfile := env.scrapedProfile.isSome
        let hasPosts := env.scrapedPosts ≠ []
        if !hasProfile && !hasPosts then { result := none, db := db, scrapeCalls := 1 }
        else
          let profileInfo : ProfileInfo :=
            match env.scrapedProfile with
            | some update => update profileData
            | none => baseProfileInfo profileData
          let (analyzedPosts, metrics, scores) :=
            if hasPosts then
              let analyzedPosts := analyze_instagram_posts env.scrapedPosts username env.now
              let metrics := aggregate_post_metrics analyzedPosts
              let scores :=
                match env.scoringResp with
                | some s => s
                | none => calculate_scores_manually metrics username
              (analyzedPosts, metrics, scores)
            else ([], emptyMetrics, profileOnlyScores username)
          let scores :=
            if scores.Authenticity = 0 ∧ scores.BrandSafety = 0 ∧
                scores.AudienceMatch = 0 ∧ scores.ContentQuality = 0 then
              calculate_scores_manually metrics username
            else scores
          let (success, db2) :=
            insert_complete_profile db env.now env.saveOk profileInfo analyzedPosts
              metrics scores
          if success then
            { result := get_profile_from_cache db2 username, db := db2, scrapeCalls := 1 }
          else { result := none, db := db2, scrapeCalls := 1 }

/-- Claim C1: when the store holds a record for the selected canonical
username that is fresh (younger than 7 days), `run_workflow` short-circuits:
it returns exactly the cached record, issues zero external scrape calls, and
leaves the persisted store unchanged. -/
theorem cache_hit_short_circuit (env : WorkflowEnv) (db : Database)
    (chatMessage u : String) (cached : StoredProfile)
    (hsel : workflowSelectedUsername env chatMessage = some u)
    (hcache : check_profile_exists db env.now u = (true, some cached)) :
    run_workflow env db chatMessage
      = { result := some cached, db := db, scrapeCalls := 0 } := by
  unfold workflowSelectedUsername at hsel
  obtain ⟨fp, hfp, hu⟩ := Option.bind_eq_some.mp hsel
  unfold run_workflow
  rw [hfp]
  dsimp only
  rw [hu]
  dsimp only
  rw [hcache]

/-- Oracle inputs driving the witness run: normalization and selection resolve
the query `Foo` to the profile URL `https://instagram.com/foo`. -/
def witnessEnv : WorkflowEnv :=
  { now := 1
    normalizedResp := some { search_name := "Foo", aliases := [], handles := [] }
    searchResults := some [⟨"https://instagram.com/foo", "Foo", "s"⟩]
    selectionResp := some (some { name := "Foo", username := "foo",
                                  instagram_url := "https://instagram.com/foo",
                                  confidence := 9/10 })
    scrapedProfile := none
    scrapedPosts := []
    scoringResp := none
    saveOk := true }

/-- Witness for C1: with `foo` cached one second ago, the run returns the
cached record, scrapes nothing and writes nothing. -/
theorem cache_hit_short_circuit_witness :
    run_workflow witnessEnv witnessDb "Foo"
      = { result := some witnessProfile, db := witnessDb, scrapeCalls := 0 } := by
  refine cache_hit_short_circuit witnessEnv witnessDb "Foo" "foo" witnessProfile rfl ?_
  show check_profile_exists witnessDb 1 "foo" = (true, some witnessProfile)
  unfold check_profile_exists
  rw [show witnessDb.profiles.lookup (pyLower "foo") = some witnessProfile from rfl]
  dsimp only
  rw [show witnessProfile.metadata.last_scraped = some 0 from rfl]
  dsimp only
  rw [if_pos (by norm_num)]

/-! ## Vector index (`fast_semantic_matcher.py`)

The FAISS index itself is native code; its state is modelled by its size and
the username key-array, and `index.search` results arrive as oracle-provided
`(score, position)` hits. -/

/-- The index-relevant state of `FastSemanticMatcher`: `faissIndexSize` is
`none` when no index is loaded (`self.faiss_index is None`). -/
structure MatcherState where
  faissIndexSize : Option ℕ
  username_list : List String
  embedding_dim : ℕ

/-- Embedding of `FastSemanticMatcher.build_faiss_index` (lines 83-106).  The
embedding matrix is represented by its shape `(N, D)` - a 2-D array, so the
`ndim == 2` assertion of line 93 holds.  Line 94 then evaluates
`embeddings.shape > 0`, comparing the shape *tuple* against the int `0`,
which raises `TypeError` before the index is ever constructed - so the call
errors on every input.  (Had it not, the same line would index `shape[18]`
out of range, and line 95 would compare `len(usernames)` with the shape
tuple, failing that assertion.) -/
def build_faiss_index (_state : MatcherState) (_shape : ℕ × ℕ)
    (_usernames : List String) : Except String MatcherState :=
  Except.error "TypeError: unsupported comparison between tuple and int"

/-- Python list indexing with negative wrap-around. -/
def pyListGet {α : Type} (l : List α) (i : ℤ) : Option α :=
  if 0 ≤ i then l.get? i.toNat
  else if 0 ≤ (l.length : ℤ) + i then l.get? ((l.length : ℤ) + i).toNat
  else none

/-- The hit-processing loop of `search_by_text` (lines 147-155): skip the `-1`
no-match sentinel and any position at or beyond the key-array length, resolve
the rest through `username_list`. -/
def searchHitsLoop (names : List String) :
    List (ℚ × ℤ) → Except String (List (String × ℚ))
  | [] => Except.ok []
  | (score, idx) :: rest =>
    if idx = -1 then searchHitsLoop names rest
    else if (names.length : ℤ) ≤ idx then searchHitsLoop names rest
    else
      match pyListGet names idx with
      | none => Except.error "IndexError: list index out of range"
      | some u => (searchHitsLoop names rest).map (fun rs => (u, score) :: rs)

/-- Embedding of `FastSemanticMatcher.search_by_text` (lines 128-155): with no
index or an empty key-array return `[]`, otherwise process the FAISS hits. -/
def search_by_text (state : MatcherState) (hits : List (ℚ × ℤ)) :
    Except String (List (String × ℚ)) :=
  if state.faissIndexSize.isNone || state.username_list = [] then Except.ok []
  else searchHitsLoop state.username_list hits

/-- Spec-side check: every username returned by the hit loop lies in the
key-array. -/
def searchResultsInKeys (names : List String) (hits : List (ℚ × ℤ)) : Bool :=
  match searchHitsLoop names hits with
  | Except.ok rs => rs.all (fun r => names.contains r.1)
  | Except.error _ => true

/-- Claim C8 (code bug in `build_faiss_index`): as written, every call to
`build_faiss_index` raises `TypeError` at the assertion `embeddings.shape > 0`
(line 94), so no rebuild can ever succeed and the claimed key-array/index
alignment is unattainable; the `search_by_text` half of the claim does hold -
every returned username lies in the key-array, the `-1` sentinel and
out-of-range positions being skipped. -/
theorem build_faiss_index_always_raises :
    (∀ (st : MatcherState) (shape : ℕ × ℕ) (us : List String),
      build_faiss_index st shape us
        = Except.error "TypeError: unsupported comparison between tuple and int") ∧
    (∀ (names : List String) (hits : List (ℚ × ℤ)),
      searchResultsInKeys names hits = true) := by
  refine ⟨fun _ _ _ => rfl, ?_⟩
  intro names hits
  induction hits with
  | nil => rfl
  | cons h rest ih =>
    obtain ⟨score, idx⟩ := h
    unfold searchResultsInKeys at ih ⊢
    unfold searchHitsLoop
    by_cases h1 : idx = -1
    · rw [if_pos h1]
      exact ih
    · rw [if_neg h1]
      by_cases h2 : (names.length : ℤ) ≤ idx
      · rw [if_pos h2]
        exact ih
      · rw [if_neg h2]
        rcases hg : pyListGet names idx with _ | u
        · rfl
        · have hu : u ∈ names := by
            unfold pyListGet at hg
            split at hg
            · exact List.get?_mem hg
            · split at hg
              · exact List.get?_mem hg
              · cases hg
          rcases hrec : searchHitsLoop names rest with e | rs
          · simp [hrec, Except.map]
          · rw [hrec] at ih
            dsimp only at ih
            simp [hrec, Except.map, List.all_cons, ih, hu]
            intro a b hab
            have h3 := List.all_eq_true.mp ih (a, b) hab
            simpa using h3

/-! ## Unified data manager lookup ordering (`unified_data_manager.py`,
lines 105-247)

Spelling correction and normalization results, the two local lookup tables
and the auto-scrape workflow outcome are oracle inputs; the run records an
event trace of its local lookups and of entry into the auto-scraping
workflow (inside which all external search/scrape traffic happens). -/

/-- Observable events of one find run. -/
inductive SearchEv where
  | lookupMain (term : String)
  | lookupEmb (term : String)
  | scrape
deriving Repr, DecidableEq

/-- Oracle inputs of one find run.  `mainLookup` and `embLookup` abstract
`_search_main_database` and `_search_embeddings_database` (found record and
matched username, or `none`); `scrapeOutcome` abstracts the triple returned
by the auto-scrape workflow. -/
structure FindEnv where
  spellResultSync : SpellResult
  spellResultAsync : SpellResult
  normalized : NormData
  mainLookup : String → Option (StoredProfile × String)
  embLookup : String → Option (StoredProfile × String)
  autoScrapingEnabled : Bool
  scrapeOutcome : Bool × Option StoredProfile × String

/-- Lines 134-143 / 206-215: generated search terms - corrected name,
normalized search name, aliases, handles, then the original query; each
stripped, empties dropped, deduplicated preserving order. -/
def searchTermsOf (influencerName : String) (spell : SpellResult)
    (norm : NormData) : List String :=
  dedupPreserve
    (([spell.corrected_name, norm.search_name] ++ norm.aliases ++ norm.handles
        ++ [influencerName]).filterMap
      (fun t => if t ≠ "" && pyStrip t ≠ "" then some (pyStrip t) else none))

/-- Result of one find run, with its event trace. -/
structure FindOutcome where
  found : Bool
  data : Option StoredProfile
  reason : String
  trace : List SearchEv

/-- The term loop of lines 148-161 / 220-233 with its lookup trace: per term,
first the exact profile store, then the vector-summary store; stop at the
first hit (`true` marks a main-store hit). -/
def searchTermsLoop (mainL embL : String → Option (StoredProfile × String)) :
    List String → Option (StoredProfile × String × Bool) × List SearchEv
  | [] => (none, [])
  | t :: rest =>
    match mainL t with
    | some (d, u) => (some (d, u, true), [SearchEv.lookupMain t])
    | none =>
      match embL t with
      | some (d, u) =>
        (some (d, u, false), [SearchEv.lookupMain t, SearchEv.lookupEmb t])
      | none =>
        let (res, tr) := searchTermsLoop mainL embL rest
        (res, SearchEv.lookupMain t :: SearchEv.lookupEmb t :: tr)

/-- Embedding of `UnifiedDataManager._find_influencer_anywhere_sync`
(lines 105-171): spelling gate, local lookups over all generated terms, then -
only when nothing matched locally - the auto-scraping workflow. -/
def _find_influencer_anywhere_sync (env : FindEnv) (influencerName : String)
    (autoScrape : Bool) : FindOutcome :=
  let spell := env.spellResultSync
  if !spell.is_influencer then
    { found := false, data := none, reason := "not_influencer", trace := [] }
  else
    let terms := searchTermsOf influencerName spell env.normalized
    match searchTermsLoop env.mainLookup env.embLookup terms with
    | (some (d, u, isMain), tr) =>
      { found := true, data := some d,
        reason := (if isMain then "main_db:@" else "embeddings:@") ++ u,
        trace := tr }
    | (none, tr) =>
      if autoScrape && env.autoScrapingEnabled then
        { found := env.scrapeOutcome.1, data := env.scrapeOutcome.2.1,
          reason := env.scrapeOutcome.2.2, trace := tr ++ [SearchEv.scrape] }
      else
        { found := false, data := none, reason := "not_found", trace := tr }

/-- Embedding of `UnifiedDataManager.find_influencer_anywhere_async`
(lines 173-247): identical structure; the spelling result may come from the
suspending call or its synchronous fallback (absorbed into the oracle), and
the auto-scrape workflow (async, falling back to sync on failure) is entered
at the same single point. -/
def find_influencer_anywhere_async (env : FindEnv) (influencerName : String)
    (autoScrape : Bool) : FindOutcome :=
  let spell := env.spellResultAsync
  if !spell.is_influencer then
    { found := false, data := none, reason := "not_influencer", trace := [] }
  else
    let terms := searchTermsOf influencerName spell env.normalized
    match searchTermsLoop env.mainLookup env.embLookup terms with
    | (some (d, u, isMain), tr) =>
      { found := true, data := some d,
        reason := (if isMain then "main_db:@" else "embeddings:@") ++ u,
        trace := tr }
    | (none, tr) =>
      if autoScrape && env.autoScrapingEnabled then
        { found := env.scrapeOutcome.1, data := env.scrapeOutcome.2.1,
          reason := env.scrapeOutcome.2.2, trace := tr ++ [SearchEv.scrape] }
      else
        { found := false, data := none, reason := "not_found", trace := tr }

/-- The complete local-lookup trace: for every term, the exact-store lookup
immediately followed by the vector-store lookup. -/
def fullLookupTrace (terms : List String) : List SearchEv :=
  terms.flatMap (fun t => [SearchEv.lookupMain t, SearchEv.lookupEmb t])

/-- A trace with no scrape event. -/
def scrapeFree (tr : List SearchEv) : Bool := !(tr.contains SearchEv.scrape)

/-- Checker for C9: either the run never scraped, or its trace is exactly the
complete local-lookup trace over all generated terms followed by the single
scrape entry; and a run with a local hit never scraped. -/
def lookupBeforeScrapeOk (terms : List String) (localHit : Bool)
    (o : FindOutcome) : Bool :=
  (scrapeFree o.trace || (o.trace == fullLookupTrace terms ++ [SearchEv.scrape])) &&
  (!localHit || scrapeFree o.trace)

/-- The term-loop trace never contains a scrape event. -/
theorem searchTermsLoop_scrapeFree (mainL embL : String → Option (StoredProfile × String))
    (terms : List String) :
    scrapeFree (searchTermsLoop mainL embL terms).2 = true := by
  induction terms with
  | nil => rfl
  | cons t rest ih =>
    unfold searchTermsLoop
    rcases mainL t with _ | du
    · rcases embL t with _ | du2
      · rcases hr : searchTermsLoop mainL embL rest with ⟨res, tr⟩
        rw [hr] at ih
        simp only [scrapeFree, List.contains_cons] at ih ⊢
        simpa using ih
      · obtain ⟨d, u⟩ := du2
        rfl
    · obtain ⟨d, u⟩ := du
      rfl

/-- When the term loop misses everywhere, its trace is the complete
local-lookup trace. -/
theorem searchTermsLoop_none_trace (mainL embL : String → Option (StoredProfile × String))
    (terms : List String) (h : (searchTermsLoop mainL embL terms).1 = none) :
    (searchTermsLoop mainL embL terms).2 = fullLookupTrace terms := by
  induction terms with
  | nil => rfl
  | cons t rest ih =>
    unfold searchTermsLoop at h ⊢
    rcases hm : mainL t with _ | ⟨d, u⟩
    · rw [hm] at h
      rcases he : embL t with _ | ⟨d2, u2⟩
      · rw [he] at h
        dsimp only at h ⊢
        rw [ih h]
        rfl
      · rw [he] at h
        dsimp only at h
        cases h
    · rw [hm] at h
      dsimp only at h
      cases h

/-- Claim C9: in both the blocking and the suspending resolution path, every
generated search term is looked up in the exact-key profile store and then in
the vector-index summary store, and the auto-scrape workflow is entered only
after all these local lookups completed without a match; a run that found a
local match never issues a scrape call. -/
theorem local_lookup_precedes_scrape (env : FindEnv) (name : String)
    (autoScrape : Bool) :
    lookupBeforeScrapeOk (searchTermsOf name env.spellResultSync env.normalized)
      ((searchTermsLoop env.mainLookup env.embLookup
        (searchTermsOf name env.spellResultSync env.normalized)).1.isSome)
      (_find_influencer_anywhere_sync env name autoScrape) = true ∧
    lookupBeforeScrapeOk (searchTermsOf name env.spellResultAsync env.normalized)
      ((searchTermsLoop env.mainLookup env.embLookup
        (searchTermsOf name env.spellResultAsync env.normalized)).1.isSome)
      (find_influencer_anywhere_async env name autoScrape) = true := by
  constructor
  · unfold _find_influencer_anywhere_sync
    rcases hb : env.spellResultSync.is_influencer
    · simp [hb, lookupBeforeScrapeOk, scrapeFree]
    · simp only [hb, Bool.not_true, Bool.false_eq_true, if_false]
      have hsf := searchTermsLoop_scrapeFree env.mainLookup env.embLookup
        (searchTermsOf name env.spellResultSync env.normalized)
      rcases hl : searchTermsLoop env.mainLookup env.embLookup
          (searchTermsOf name env.spellResultSync env.normalized) with ⟨res, tr⟩
      rw [hl] at hsf
      rcases res with _ | ⟨d, u, isMain⟩
      · dsimp only
        rcases hauto : autoScrape && env.autoScrapingEnabled
        · simp [lookupBeforeScrapeOk, hsf]
        · have htr : tr = fullLookupTrace
              (searchTermsOf name env.spellResultSync env.normalized) := by
            have := searchTermsLoop_none_trace env.mainLookup env.embLookup
              (searchTermsOf name env.spellResultSync env.normalized)
            rw [hl] at this
            exact this rfl
          simp [lookupBeforeScrapeOk, scrapeFree, htr]
      · dsimp only
        simp [lookupBeforeScrapeOk, hsf]
  · unfold find_influencer_anywhere_async
    rcases hb : env.spellResultAsync.is_influencer
    · simp [hb, lookupBeforeScrapeOk, scrapeFree]
    · simp only [hb, Bool.not_true, Bool.false_eq_true, if_false]
      have hsf := searchTermsLoop_scrapeFree env.mainLookup env.embLookup
        (searchTermsOf name env.spellResultAsync env.normalized)
      rcases hl : searchTermsLoop env.mainLookup env.embLookup
          (searchTermsOf name env.spellResultAsync env.normalized) with ⟨res, tr⟩
      rw [hl] at hsf
      rcases res with _ | ⟨d, u, isMain⟩
      · dsimp only
        rcases hauto : autoScrape && env.autoScrapingEnabled
        · simp [lookupBeforeScrapeOk, hsf]
        · have htr : tr = fullLookupTrace
              (searchTermsOf name env.spellResultAsync env.normalized) := by
            have := searchTermsLoop_none_trace env.mainLookup env.embLookup
              (searchTermsOf name env.spellResultAsync env.normalized)
            rw [hl] at this
            exact this rfl
          simp [lookupBeforeScrapeOk, scrapeFree, htr]
      · dsimp only
        simp [lookupBeforeScrapeOk, hsf]
